import Mathlib

/-
  Verification of the ChannelPilot bot core against its specification.

  Shallow embedding of the relevant parts of the source:
    - src/bot/content_manager.py  (rotation selector, scheduled messages, templates)
    - src/bot/analytics.py        (engagement aggregation, store initialization)
    - src/bot/scheduler.py        (daily message / daily poll jobs)
    - src/bot/utils.py            (subscriber-count fetch)
    - src/bot/config.py           (default configuration)

  Timestamps are modelled as natural numbers (content side) or integers
  (analytics side, where a window cutoff `now - days` is computed).
  Randomness (`random.choices` over positive weights) is modelled by a
  free choice index: every element of the sampled list has positive
  weight `1 / (usage_count + 1)`, so any index can be drawn.
  Persistence is modelled by a `FileState` component next to the
  in-memory document; `_save_data` copies the document into it.
-/

namespace ChannelPilot

/-- Content template record (ContentTemplate dataclass, content_manager.py). -/
structure ContentTemplate where
  id : String
  name : String
  category : String
  template : String
  var_names : List String
  usage_count : Nat
deriving DecidableEq, Repr

/-- Per-scope rotation state (entry of data["content_rotation"]). -/
structure RotationState where
  used_templates : List String
  last_reset : Nat
deriving DecidableEq, Repr

/-- Scheduled message record (ScheduledMessage dataclass, content_manager.py). -/
structure ScheduledMessage where
  id : String
  channel_id : String
  content : String
  scheduled_time : Nat
  category : String
  status : String
  created_at : Nat
deriving DecidableEq, Repr

/-- The content document (self.data of ContentManager). The rotation map and
the preferences map are association lists, mirroring insertion-ordered dicts. -/
structure ContentData where
  scheduled_messages : List ScheduledMessage
  templates : List ContentTemplate
  content_rotation : List (String × RotationState)
  channel_preferences : List (String × String)
  last_updated : Nat
deriving DecidableEq, Repr

/-- State of a backing JSON file: absent, unreadable, or holding a document. -/
inductive FileState (α : Type) where
  | missing
  | corrupt
  | valid (d : α)
deriving DecidableEq, Repr

/-- A content manager instance: in-memory document plus backing file. -/
structure ContentStore where
  data : ContentData
  file : FileState ContentData
deriving DecidableEq, Repr

/-- Default document built by ContentManager._load_data on FileNotFoundError. -/
def default_content_data (now : Nat) : ContentData :=
  { scheduled_messages := [], templates := [], content_rotation := [],
    channel_preferences := [], last_updated := now }

/-- Degraded document returned by ContentManager._load_data on any other
read error (the source drops the preferences and last-updated keys; we keep
the fields, empty). -/
def degraded_content_data : ContentData :=
  { scheduled_messages := [], templates := [], content_rotation := [],
    channel_preferences := [], last_updated := 0 }

/-- ContentManager._load_data. -/
def content_load_data (fs : FileState ContentData) (now : Nat) : ContentData :=
  match fs with
  | .valid d => d
  | .missing => default_content_data now
  | .corrupt => degraded_content_data

/-- ContentManager.__init__: loads the document; performs no write. -/
def content_manager_init (fs : FileState ContentData) (now : Nat) : ContentStore :=
  { data := content_load_data fs now, file := fs }

/-- ContentManager._save_data: stamps last_updated and writes the document. -/
def content_save_data (s : ContentStore) (now : Nat) : ContentStore :=
  let d := { s.data with last_updated := now }
  { data := d, file := FileState.valid d }

/-- ContentManager.get_templates: optionally filter templates by category. -/
def get_templates (data : ContentData) (category : Option String) :
    List ContentTemplate :=
  match category with
  | none => data.templates
  | some c => data.templates.filter (fun t => t.category == c)

/-- Rotation scope key, f-string `"{channel_id}_{category}"`. -/
def rotation_key (channel_id category : String) : String :=
  channel_id ++ "_" ++ category

/-- Dict write `self.data["content_rotation"][key] = st`: replace in place,
or append when the key is new (insertion order of a Python dict). -/
def setRotation : List (String × RotationState) → String → RotationState →
    List (String × RotationState)
  | [], key, st => [(key, st)]
  | (k, v) :: rest, key, st =>
    if k == key then (key, st) :: rest else (k, v) :: setRotation rest key st

/-- The rotation state stored for a scope (empty fresh state when absent). -/
def rotationOf (data : ContentData) (channel_id category : String) :
    RotationState :=
  ((data.content_rotation).lookup (rotation_key channel_id category)).getD
    { used_templates := [], last_reset := 0 }

/-- The used-id list stored for a scope. -/
def usedOf (data : ContentData) (channel_id category : String) : List String :=
  (rotationOf data channel_id category).used_templates

/-- Candidates of the scope not yet marked used (the available set). -/
def availableOf (data : ContentData) (channel_id category : String) :
    List ContentTemplate :=
  (get_templates data (some category)).filter
    (fun t => !((usedOf data channel_id category).contains t.id))

/-- Placeholder record; never actually selected (the sampled list is nonempty). -/
def fallback_template : ContentTemplate :=
  { id := "", name := "", category := "", template := "", var_names := [],
    usage_count := 0 }

/-- ContentManager.get_rotated_content, selection core. `choice` resolves the
weighted random draw: `random.choices` gives every available item positive
weight `1 / (usage_count + 1)`, so any index of the available list may be
drawn; the draw is modelled as `choice % available.length`. Returns the
selected template and the updated document (no save yet). -/
def get_rotated_content_core (data : ContentData) (channel_id category : String)
    (now : Nat) (choice : Nat) : Option ContentTemplate × ContentData :=
  let key := rotation_key channel_id category
  let templates := get_templates data (some category)
  if templates.isEmpty then
    (none, data)
  else
    let rotation := ((data.content_rotation).lookup key).getD
      { used_templates := [], last_reset := now }
    let available := templates.filter
      (fun t => !(rotation.used_templates.contains t.id))
    let rot2 := if available.isEmpty then
        { used_templates := [], last_reset := now } else rotation
    let avail2 := if available.isEmpty then templates else available
    let selected := avail2.getD (choice % avail2.length) fallback_template
    let rot3 := { rot2 with
      used_templates := rot2.used_templates ++ [selected.id] }
    (some selected,
     { data with content_rotation := setRotation data.content_rotation key rot3 })

/-- ContentManager.get_rotated_content: returns the selected template body and
persists; on the empty-candidates early return nothing is mutated or saved. -/
def get_rotated_content (s : ContentStore) (channel_id category : String)
    (now : Nat) (choice : Nat) : Option String × ContentStore :=
  match get_rotated_content_core s.data channel_id category now choice with
  | (none, _) => (none, s)
  | (some t, d) => (some t.template, content_save_data { s with data := d } now)

/-- A run of consecutive get_rotated_content calls for one scope, one entry of
the choice list per call. -/
def run_rotation (channel_id category : String) (now : Nat) :
    ContentData → List Nat → List (Option ContentTemplate) × ContentData
  | data, [] => ([], data)
  | data, c :: cs =>
    let step := get_rotated_content_core data channel_id category now c
    let rest := run_rotation channel_id category now step.2 cs
    (step.1 :: rest.1, rest.2)

/-- Loop body of ContentManager.mark_message_sent: set the status of the first
message whose id matches, leave the rest untouched. -/
def markFirst : List ScheduledMessage → String → List ScheduledMessage
  | [], _ => []
  | m :: rest, message_id =>
    if m.id == message_id then { m with status := "sent" } :: rest
    else m :: markFirst rest message_id

/-- ContentManager.mark_message_sent, document part. -/
def mark_message_sent_data (data : ContentData) (message_id : String) :
    ContentData :=
  { data with scheduled_messages := markFirst data.scheduled_messages message_id }

/-- ContentManager.mark_message_sent: mutate the document and save. -/
def mark_message_sent (s : ContentStore) (message_id : String) (now : Nat) :
    ContentStore :=
  content_save_data { s with data := mark_message_sent_data s.data message_id } now

/-- ContentManager.schedule_message: append a fresh pending message and save.
Returns the generated message id. -/
def schedule_message (s : ContentStore) (channel_id content : String)
    (scheduled_time : Nat) (category : String) (now : Nat) :
    String × ContentStore :=
  let message_id := "msg_" ++ toString now
  let msg : ScheduledMessage :=
    { id := message_id, channel_id := channel_id, content := content,
      scheduled_time := scheduled_time, category := category,
      status := "pending", created_at := now }
  (message_id,
   content_save_data
     { s with data := { s.data with
         scheduled_messages := s.data.scheduled_messages ++ [msg] } } now)

/-- In-place `template["usage_count"] += 1` on the first template whose id
matches (ContentManager.use_template). -/
def bumpUsage : List ContentTemplate → String → List ContentTemplate
  | [], _ => []
  | t :: rest, template_id =>
    if t.id == template_id then
      { t with usage_count := t.usage_count + 1 } :: rest
    else t :: bumpUsage rest template_id

/-- Placeholder substitution `content.replace("{var}", value)` folded over the
variables dict. -/
def substitute (template : String) (vars : List (String × String)) : String :=
  vars.foldl (fun c p => c.replace ("\x7b" ++ p.1 ++ "\x7d") p.2) template

/-- ContentManager.use_template: `none` models the ValueError raise (no state
change); on success the matched template's usage_count is incremented and the
document is saved. -/
def use_template (s : ContentStore) (template_id : String)
    (vars : List (String × String)) (now : Nat) :
    Option (String × ContentStore) :=
  match s.data.templates.find? (fun t => t.id == template_id) with
  | none => none
  | some t =>
    some (substitute t.template vars,
      content_save_data
        { s with data := { s.data with
            templates := bumpUsage s.data.templates template_id } } now)

/-- Per-channel snapshot record (ChannelStats dataclass, analytics.py). -/
structure ChannelStats where
  channel_id : String
  timestamp : Int
  subscriber_count : Int
  messages_sent : Nat
  polls_sent : Nat
  engagement_rate : Rat
deriving DecidableEq, Repr

/-- Per-message outcome record (MessageStats dataclass, analytics.py). -/
structure MessageStats where
  message_id : Int
  channel_id : String
  timestamp : Int
  message_type : String
  views : Nat
  reactions : Nat
  forwards : Nat
  engagement_score : Rat
deriving DecidableEq, Repr

/-- The analytics document (self.data of AnalyticsManager). -/
structure AnalyticsData where
  channel_stats : List ChannelStats
  message_stats : List MessageStats
  daily_summaries : List String
  last_updated : Nat
deriving DecidableEq, Repr

/-- An analytics manager instance: in-memory document plus backing file. -/
structure AnalyticsStore where
  data : AnalyticsData
  file : FileState AnalyticsData
deriving DecidableEq, Repr

/-- Default document built by AnalyticsManager._load_data on FileNotFoundError. -/
def default_analytics_data (now : Nat) : AnalyticsData :=
  { channel_stats := [], message_stats := [], daily_summaries := [],
    last_updated := now }

/-- Degraded document returned by AnalyticsManager._load_data on other errors. -/
def degraded_analytics_data : AnalyticsData :=
  { channel_stats := [], message_stats := [], daily_summaries := [],
    last_updated := 0 }

/-- AnalyticsManager._load_data. -/
def analytics_load_data (fs : FileState AnalyticsData) (now : Nat) :
    AnalyticsData :=
  match fs with
  | .valid d => d
  | .missing => default_analytics_data now
  | .corrupt => degraded_analytics_data

/-- AnalyticsManager.__init__: loads the document; performs no write. -/
def analytics_manager_init (fs : FileState AnalyticsData) (now : Nat) :
    AnalyticsStore :=
  { data := analytics_load_data fs now, file := fs }

/-- AnalyticsManager._save_data: stamps last_updated and writes the document. -/
def analytics_save_data (s : AnalyticsStore) (now : Nat) : AnalyticsStore :=
  let d := { s.data with last_updated := now }
  { data := d, file := FileState.valid d }

/-- Result of AnalyticsManager.get_engagement_stats. The zero-case dict of the
source has no period_days key, so the field is optional. -/
structure EngagementStats where
  total_messages : Nat
  avg_views : Rat
  avg_reactions : Rat
  engagement_rate : Rat
  period_days : Option Nat
deriving DecidableEq, Repr

/-- Window filter of get_engagement_stats: outcomes of the channel whose
timestamp is at or after `now - days`. -/
def engagement_window (data : AnalyticsData) (channel_id : String)
    (days : Nat) (now : Int) : List MessageStats :=
  data.message_stats.filter
    (fun m => m.channel_id == channel_id && decide ((now - (days : Int)) ≤ m.timestamp))

/-- AnalyticsManager.get_engagement_stats. -/
def get_engagement_stats (data : AnalyticsData) (channel_id : String)
    (days : Nat) (now : Int) : EngagementStats :=
  let messages := engagement_window data channel_id days now
  if messages.isEmpty then
    { total_messages := 0, avg_views := 0, avg_reactions := 0,
      engagement_rate := 0, period_days := none }
  else
    let total_views : Nat := (messages.map (fun m => m.views)).sum
    let total_reactions : Nat := (messages.map (fun m => m.reactions)).sum
    let total_messages : Nat := messages.length
    { total_messages := total_messages,
      avg_views :=
        if total_messages > 0 then (total_views : Rat) / (total_messages : Rat) else 0,
      avg_reactions :=
        if total_messages > 0 then (total_reactions : Rat) / (total_messages : Rat) else 0,
      engagement_rate :=
        if total_views > 0 then (total_reactions : Rat) / (total_views : Rat) * 100 else 0,
      period_days := some days }

/-- One configured channel entry (channels.json value); `active` is read with
`channel_info.get("active", True)`, hence optional. -/
structure ChannelInfo where
  name : String
  active : Option Bool
deriving DecidableEq, Repr

/-- Poll section of config.json, fields read through dict.get. -/
structure PollConfig where
  enabled : Option Bool
  hour : Option Nat
  minute : Option Nat
  question : Option String
  min_subscribers : Option Nat
  options : List String
deriving DecidableEq, Repr

/-- Poll section of Config._get_default_config. -/
def default_poll_config : PollConfig :=
  { enabled := some true, hour := some 10, minute := some 0,
    question := some "Comment vous sentez-vous aujourd\x27hui ?",
    min_subscribers := some 500,
    options := ["Motivé 💪", "Fatigué 😴", "Neutre 😐"] }

/-- Outcome of the transport calls inside get_channel_subscriber_count
(utils.py): the member-count call succeeds, or it raises and the code falls
back to the chat's member_count attribute, or get_chat itself raises. -/
inductive FetchOutcome where
  | countOk (n : Nat)
  | countFallback (attr : Option Nat)
  | chatError
deriving DecidableEq, Repr

/-- utils.get_channel_subscriber_count: every failure path yields 0. -/
def get_channel_subscriber_count : FetchOutcome → Nat
  | .countOk n => n
  | .countFallback attr => attr.getD 0
  | .chatError => 0

/-- What the daily-poll job does with one channel. -/
inductive PollStep where
  | skippedInactive (channel : String)
  | skippedLowCount (channel : String) (count : Nat)
  | sentPoll (channel : String)
  | sendFailed (channel : String)
deriving DecidableEq, Repr

/-- True when a send_poll call was issued for the channel. -/
def PollStep.isAttempt : PollStep → Bool
  | .sentPoll _ => true
  | .sendFailed _ => true
  | _ => false

/-- Per-channel body of SchedulerManager._send_daily_polls: skip inactive
channels, skip channels whose fetched count is below the literal 500, send
otherwise; a raising send is caught and logged (sendFailed). -/
def poll_step (fetch : String → FetchOutcome) (sendOk : String → Bool)
    (entry : String × ChannelInfo) : PollStep :=
  if !(entry.2.active.getD true) then .skippedInactive entry.1
  else
    let n := get_channel_subscriber_count (fetch entry.1)
    if n < 500 then .skippedLowCount entry.1 n
    else if sendOk entry.1 then .sentPoll entry.1
    else .sendFailed entry.1

/-- SchedulerManager._send_daily_polls: nothing happens when no poll options
are configured; otherwise every channel is processed in order. -/
def send_daily_polls (channels : List (String × ChannelInfo))
    (poll_config : PollConfig) (poll_options : List String)
    (fetch : String → FetchOutcome) (sendOk : String → Bool) : List PollStep :=
  if poll_options.isEmpty then []
  else channels.map (poll_step fetch sendOk)

/-- What the daily-message job does with one channel. -/
inductive SendStep where
  | skippedInactive (channel : String)
  | sentMessage (channel : String) (text : String)
  | sendFailed (channel : String)
deriving DecidableEq, Repr

/-- Per-channel body of SchedulerManager._send_daily_messages. -/
def message_step (sendOk : String → Bool) (message : String)
    (entry : String × ChannelInfo) : SendStep :=
  if !(entry.2.active.getD true) then .skippedInactive entry.1
  else if sendOk entry.1 then .sentMessage entry.1 message
  else .sendFailed entry.1

/-- SchedulerManager._send_daily_messages: the message of the day is the
entry at index `dayOfYear % len(daily_messages)`; every active channel gets
that same message. -/
def send_daily_messages (channels : List (String × ChannelInfo))
    (daily_messages : List String) (dayOfYear : Nat)
    (sendOk : String → Bool) : List SendStep :=
  if daily_messages.isEmpty then []
  else
    let message := daily_messages.getD (dayOfYear % daily_messages.length) ""
    channels.map (message_step sendOk message)

/-- A single content template used by the concrete checks. -/
def tplA : ContentTemplate :=
  { id := "t1", name := "n1", category := "motivation", template := "body",
    var_names := [], usage_count := 0 }

/-- A second template of the same category. -/
def tplB : ContentTemplate :=
  { id := "t2", name := "n2", category := "motivation", template := "body2",
    var_names := [], usage_count := 3 }

/-- Document holding exactly one motivation template and no rotation state. -/
def dataOneTpl : ContentData :=
  { scheduled_messages := [], templates := [tplA], content_rotation := [],
    channel_preferences := [], last_updated := 0 }

/-- Document holding two motivation templates and no rotation state. -/
def dataTwoTpl : ContentData :=
  { scheduled_messages := [], templates := [tplA, tplB], content_rotation := [],
    channel_preferences := [], last_updated := 0 }

/-- Store wrapping dataOneTpl with its file in sync. -/
def storeOneTpl : ContentStore :=
  { data := dataOneTpl, file := FileState.valid dataOneTpl }

example : (get_rotated_content_core dataOneTpl "ch" "motivation" 7 0).1 = some tplA := by
  decide

example :
    usedOf (get_rotated_content_core dataOneTpl "ch" "motivation" 7 0).2
      "ch" "motivation" = ["t1"] := by
  decide

theorem getD_mod_mem {α : Type} {l : List α} (h : l ≠ []) (n : Nat) (d : α) :
    l.getD (n % l.length) d ∈ l := by
  have hlen : n % l.length < l.length :=
    Nat.mod_lt _ (List.length_pos.mpr h)
  rw [List.getD_eq_getElem?_getD, List.getElem?_eq_getElem hlen]
  exact List.getElem_mem hlen

theorem exists_choice_getD {α : Type} {l : List α} (d : α) {u : α} (hu : u ∈ l) :
    ∃ c, l.getD (c % l.length) d = u := by
  obtain ⟨i, hi⟩ := List.mem_iff_get.mp hu
  refine ⟨i, ?_⟩
  have hmod : (i : Nat) % l.length = i := Nat.mod_eq_of_lt i.isLt
  rw [hmod, List.getD_eq_getElem?_getD, List.getElem?_eq_getElem i.isLt]
  simpa using hi

theorem lookup_setRotation (l : List (String × RotationState)) (key : String)
    (st : RotationState) : List.lookup key (setRotation l key st) = some st := by
  induction l with
  | nil => simp [setRotation, List.lookup]
  | cons p rest ih =>
    obtain ⟨k, v⟩ := p
    by_cases h : k = key
    · subst h; simp [setRotation, List.lookup]
    · have hb : (k == key) = false := by simp [h]
      have hb' : (key == k) = false := by
        simp [beq_iff_eq]; exact fun he => h he.symm
      simp [setRotation, hb, List.lookup, hb', ih]

theorem usedOf_getD (data : ContentData) (ch cat : String) (a : Nat) :
    (((data.content_rotation).lookup (rotation_key ch cat)).getD
      { used_templates := [], last_reset := a }).used_templates
      = usedOf data ch cat := by
  unfold usedOf rotationOf
  cases (data.content_rotation).lookup (rotation_key ch cat) <;> rfl

/-- Full characterization of one `get_rotated_content_core` call with a
nonempty candidate list: some template is selected; the catalog, the
scheduled messages and the preferences are untouched; when the available set
is nonempty the selection comes from it and its id is appended to the used
list; when the available set is empty (exhaustion) the used list is reset to
just the selected id, the epoch stamp is refreshed, and the selection comes
from the full candidate list; and every element of the sampled list is
reachable by some random draw. -/
theorem get_rotated_content_core_spec
    (data : ContentData) (ch cat : String) (now choice : Nat)
    (hne : get_templates data (some cat) ≠ []) :
    ∃ t : ContentTemplate,
      (get_rotated_content_core data ch cat now choice).1 = some t ∧
      ((get_rotated_content_core data ch cat now choice).2).templates
        = data.templates ∧
      ((get_rotated_content_core data ch cat now choice).2).scheduled_messages
        = data.scheduled_messages ∧
      ((get_rotated_content_core data ch cat now choice).2).channel_preferences
        = data.channel_preferences ∧
      (availableOf data ch cat ≠ [] →
        t ∈ availableOf data ch cat ∧
        usedOf (get_rotated_content_core data ch cat now choice).2 ch cat
          = usedOf data ch cat ++ [t.id]) ∧
      (availableOf data ch cat = [] →
        t ∈ get_templates data (some cat) ∧
        usedOf (get_rotated_content_core data ch cat now choice).2 ch cat
          = [t.id] ∧
        (rotationOf (get_rotated_content_core data ch cat now choice).2
          ch cat).last_reset = now) ∧
      (∀ u ∈ (if availableOf data ch cat = [] then get_templates data (some cat)
              else availableOf data ch cat),
         ∃ c2, (get_rotated_content_core data ch cat now c2).1 = some u) := by
  have hEmp : (get_templates data (some cat)).isEmpty = false := by
    cases h : get_templates data (some cat) with
    | nil => exact absurd h hne
    | cons a as => rfl
  have hfilter :
      (get_templates data (some cat)).filter
        (fun t => !((((data.content_rotation).lookup
          (rotation_key ch cat)).getD
            { used_templates := [], last_reset := now }).used_templates.contains
              t.id))
        = availableOf data ch cat := by
    rw [usedOf_getD]
    rfl
  by_cases hav : availableOf data ch cat = []
  · -- exhaustion: the available set is empty, the epoch is reset and the
    -- selection is drawn from the full candidate list
    have hcore : get_rotated_content_core data ch cat now choice
        = (some ((get_templates data (some cat)).getD
            (choice % (get_templates data (some cat)).length) fallback_template),
           { data with content_rotation :=
              (setRotation data.content_rotation (rotation_key ch cat)
                ⟨[((get_templates data (some cat)).getD
                    (choice % (get_templates data (some cat)).length)
                      fallback_template).id],
                 now⟩) }) := by
      simp only [get_rotated_content_core, hEmp, Bool.false_eq_true, if_false]
      rw [hfilter, hav]
      simp
    refine ⟨(get_templates data (some cat)).getD
      (choice % (get_templates data (some cat)).length) fallback_template,
      ?_, ?_, ?_, ?_, ?_, ?_, ?_⟩
    · rw [hcore]
    · rw [hcore]
    · rw [hcore]
    · rw [hcore]
    · intro h; exact absurd hav h
    · intro _
      refine ⟨getD_mod_mem hne choice fallback_template, ?_, ?_⟩
      · rw [hcore]
        unfold usedOf rotationOf
        simp [lookup_setRotation]
      · rw [hcore]
        unfold rotationOf
        simp [lookup_setRotation]
    · intro u hu
      rw [if_pos hav] at hu
      obtain ⟨c2, hc2⟩ := exists_choice_getD fallback_template hu
      refine ⟨c2, ?_⟩
      have hcore2 : (get_rotated_content_core data ch cat now c2).1
          = some ((get_templates data (some cat)).getD
            (c2 % (get_templates data (some cat)).length) fallback_template) := by
        simp only [get_rotated_content_core, hEmp, Bool.false_eq_true, if_false]
        rw [hfilter, hav]
        simp
      rw [hcore2, hc2]
  · -- ordinary step: some candidate is still unused
    have havEmp : (availableOf data ch cat).isEmpty = false := by
      cases h : availableOf data ch cat with
      | nil => exact absurd h hav
      | cons a as => rfl
    have hcore : get_rotated_content_core data ch cat now choice
        = (some ((availableOf data ch cat).getD
            (choice % (availableOf data ch cat).length) fallback_template),
           { data with content_rotation :=
              (setRotation data.content_rotation (rotation_key ch cat)
                ⟨usedOf data ch cat ++
                    [((availableOf data ch cat).getD
                      (choice % (availableOf data ch cat).length)
                        fallback_template).id],
                 (((data.content_rotation).lookup (rotation_key ch cat)).getD
                    ⟨[], now⟩).last_reset⟩) }) := by
      simp only [get_rotated_content_core, hEmp, Bool.false_eq_true, if_false]
      rw [hfilter]
      simp only [havEmp, Bool.false_eq_true, if_false]
      rw [usedOf_getD]
    refine ⟨(availableOf data ch cat).getD
      (choice % (availableOf data ch cat).length) fallback_template,
      ?_, ?_, ?_, ?_, ?_, ?_, ?_⟩
    · rw [hcore]
    · rw [hcore]
    · rw [hcore]
    · rw [hcore]
    · intro _
      refine ⟨getD_mod_mem hav choice fallback_template, ?_⟩
      rw [hcore]
      unfold usedOf rotationOf
      simp [lookup_setRotation]
    · intro h; exact absurd h hav
    · intro u hu
      rw [if_neg hav] at hu
      obtain ⟨c2, hc2⟩ := exists_choice_getD fallback_template hu
      refine ⟨c2, ?_⟩
      have hcore2 : (get_rotated_content_core data ch cat now c2).1
          = some ((availableOf data ch cat).getD
            (c2 % (availableOf data ch cat).length) fallback_template) := by
        simp only [get_rotated_content_core, hEmp, Bool.false_eq_true, if_false]
        rw [hfilter]
        simp only [havEmp, Bool.false_eq_true, if_false]
      rw [hcore2, hc2]

theorem mem_of_mem_available {data : ContentData} {ch cat : String}
    {t : ContentTemplate} (h : t ∈ availableOf data ch cat) :
    t ∈ get_templates data (some cat) ∧ t.id ∉ usedOf data ch cat := by
  unfold availableOf at h
  obtain ⟨hmem, hpred⟩ := List.mem_filter.mp h
  refine ⟨hmem, ?_⟩
  simpa using hpred

theorem available_ne_nil {data : ContentData} {ch cat : String}
    (hids : ((get_templates data (some cat)).map (fun t => t.id)).Nodup)
    (hu : (usedOf data ch cat).Nodup)
    (hlen : (usedOf data ch cat).length < (get_templates data (some cat)).length) :
    availableOf data ch cat ≠ [] := by
  intro hnil
  unfold availableOf at hnil
  have hall : ∀ t ∈ get_templates data (some cat),
      t.id ∈ usedOf data ch cat := by
    intro t ht
    have h2 := List.filter_eq_nil_iff.mp hnil t ht
    simpa using h2
  have hsubset : ((get_templates data (some cat)).map (fun t => t.id))
      ⊆ usedOf data ch cat := by
    intro i hi
    obtain ⟨t, ht, rfl⟩ := List.mem_map.mp hi
    exact hall t ht
  have hle := (hids.subperm hsubset).length_le
  rw [List.length_map] at hle
  omega

theorem get_templates_eq_of_templates_eq {d d' : ContentData} {cat : String}
    (h : d'.templates = d.templates) :
    get_templates d' (some cat) = get_templates d (some cat) := by
  unfold get_templates
  rw [h]

/-- Invariant of a run of rotation calls: starting from a state whose used
list is duplicate-free and inside the candidate id set, and with exactly as
many calls left as unused candidates, every call succeeds, each selection is
a candidate, no id repeats, and the used list records the selections. -/
theorem run_rotation_spec (ch cat : String) (now : Nat) :
    ∀ (choices : List Nat) (data : ContentData),
      get_templates data (some cat) ≠ [] →
      ((get_templates data (some cat)).map (fun t => t.id)).Nodup →
      (usedOf data ch cat).Nodup →
      (∀ i ∈ usedOf data ch cat,
        i ∈ (get_templates data (some cat)).map (fun t => t.id)) →
      choices.length + (usedOf data ch cat).length
        = (get_templates data (some cat)).length →
      ∃ sel : List ContentTemplate,
        (run_rotation ch cat now data choices).1 = sel.map some ∧
        sel.length = choices.length ∧
        (∀ t ∈ sel, t ∈ get_templates data (some cat)) ∧
        (usedOf data ch cat ++ sel.map (fun t => t.id)).Nodup ∧
        usedOf (run_rotation ch cat now data choices).2 ch cat
          = usedOf data ch cat ++ sel.map (fun t => t.id) := by
  intro choices
  induction choices with
  | nil =>
    intro data hne hids hu hsub hlen
    exact ⟨[], rfl, rfl, by simp, by simpa using hu, by simp [run_rotation]⟩
  | cons c cs ih =>
    intro data hne hids hu hsub hlen
    have hlt : (usedOf data ch cat).length
        < (get_templates data (some cat)).length := by
      simp at hlen
      omega
    have havne : availableOf data ch cat ≠ [] := available_ne_nil hids hu hlt
    obtain ⟨t, ht1, htT, _, _, hstep, _, _⟩ :=
      get_rotated_content_core_spec data ch cat now c hne
    obtain ⟨htmem, hused'⟩ := hstep havne
    obtain ⟨htcand, htnotused⟩ := mem_of_mem_available htmem
    set d' := (get_rotated_content_core data ch cat now c).2 with hd'
    have htempl' : get_templates d' (some cat) = get_templates data (some cat) :=
      get_templates_eq_of_templates_eq htT
    have hne' : get_templates d' (some cat) ≠ [] := by rw [htempl']; exact hne
    have hids' : ((get_templates d' (some cat)).map (fun t => t.id)).Nodup := by
      rw [htempl']; exact hids
    have hu' : (usedOf d' ch cat).Nodup := by
      rw [hused']
      simp [List.nodup_append, hu, htnotused]
    have hsub' : ∀ i ∈ usedOf d' ch cat,
        i ∈ (get_templates d' (some cat)).map (fun t => t.id) := by
      rw [hused', htempl']
      intro i hi
      rcases List.mem_append.mp hi with h | h
      · exact hsub i h
      · simp at h
        subst h
        exact List.mem_map_of_mem (fun t => t.id) htcand
    have hlen' : cs.length + (usedOf d' ch cat).length
        = (get_templates d' (some cat)).length := by
      rw [hused', htempl']
      simp at hlen ⊢
      omega
    obtain ⟨sel', hsel1, hsel2, hsel3, hsel4, hsel5⟩ :=
      ih d' hne' hids' hu' hsub' hlen'
    refine ⟨t :: sel', ?_, ?_, ?_, ?_, ?_⟩
    · simp only [run_rotation]
      rw [← hd', hsel1, ht1]
      rfl
    · simp [hsel2]
    · intro t' ht'
      rcases List.mem_cons.mp ht' with h | h
      · subst h; exact htcand
      · rw [← htempl']; exact hsel3 t' h
    · have := hsel4
      rw [hused'] at this
      simpa [List.append_assoc] using this
    · simp only [run_rotation]
      rw [← hd', hsel5, hused']
      simp [List.append_assoc]

/-- C1: Rotation coverage. For any scope with a nonempty candidate list of
distinct ids and a fresh epoch (empty used list), any run of as many
get_rotated_content calls as there are candidates — whatever the random
draws — succeeds on every call and returns each candidate id exactly once:
the returned ids are duplicate-free and their set is the full candidate id
set. -/
theorem rotation_coverage (data : ContentData) (ch cat : String) (now : Nat)
    (choices : List Nat)
    (hne : get_templates data (some cat) ≠ [])
    (hids : ((get_templates data (some cat)).map (fun t => t.id)).Nodup)
    (hfresh : usedOf data ch cat = [])
    (hlen : choices.length = (get_templates data (some cat)).length) :
    ∃ sel : List ContentTemplate,
      (run_rotation ch cat now data choices).1 = sel.map some ∧
      (sel.map (fun t => t.id)).Nodup ∧
      (sel.map (fun t => t.id)).toFinset
        = ((get_templates data (some cat)).map (fun t => t.id)).toFinset := by
  obtain ⟨sel, h1, h2, h3, h4, h5⟩ :=
    run_rotation_spec ch cat now choices data hne hids
      (by rw [hfresh]; exact List.nodup_nil)
      (by rw [hfresh]; intro i hi; cases hi)
      (by rw [hfresh]; simpa using hlen)
  have hnodupSel : (sel.map (fun t => t.id)).Nodup := by
    rw [hfresh] at h4
    simpa using h4
  refine ⟨sel, h1, hnodupSel, ?_⟩
  have hsubF : (sel.map (fun t => t.id)).toFinset
      ⊆ ((get_templates data (some cat)).map (fun t => t.id)).toFinset := by
    intro i hi
    rw [List.mem_toFinset] at hi ⊢
    obtain ⟨t, ht, rfl⟩ := List.mem_map.mp hi
    exact List.mem_map_of_mem _ (h3 t ht)
  have hcard1 : (sel.map (fun t => t.id)).toFinset.card = choices.length := by
    rw [List.toFinset_card_of_nodup hnodupSel, List.length_map, h2]
  have hcard2 : ((get_templates data (some cat)).map
      (fun t => t.id)).toFinset.card = (get_templates data (some cat)).length := by
    rw [List.toFinset_card_of_nodup hids, List.length_map]
  exact Finset.eq_of_subset_of_card_le hsubF (by rw [hcard1, hcard2, hlen])

/-- Witness for C1 at a concrete two-template catalog and a fresh scope. -/
theorem rotation_coverage_witness :
    ∃ sel : List ContentTemplate,
      (run_rotation "ch" "motivation" 3 dataTwoTpl [0, 0]).1 = sel.map some ∧
      (sel.map (fun t => t.id)).Nodup ∧
      (sel.map (fun t => t.id)).toFinset
        = ((get_templates dataTwoTpl (some "motivation")).map
            (fun t => t.id)).toFinset :=
  rotation_coverage dataTwoTpl "ch" "motivation" 3 [0, 0]
    (by decide) (by decide) (by decide) (by decide)

/-- Counterexample to C5 as stated: with a single candidate and a fresh
scope, one successful call leaves the used list at the full candidate count,
so `|usedItemIds| < |candidateIds|` does not hold on return. The reset only
happens at the start of the next call. -/
theorem rotation_invariant_counterexample :
    usedOf dataOneTpl "ch" "motivation" = [] ∧
    (get_rotated_content_core dataOneTpl "ch" "motivation" 7 0).1 = some tplA ∧
    ¬ ((usedOf (get_rotated_content_core dataOneTpl "ch" "motivation" 7 0).2
          "ch" "motivation").length
        < (get_templates (get_rotated_content_core dataOneTpl "ch" "motivation"
            7 0).2 (some "motivation")).length) := by
  decide

/-- C5 amended: every call with a nonempty candidate list keeps the used
list inside the candidate id set and duplicate-free, with its length at most
the candidate count (equality occurs exactly after the call that consumed
the last unused candidate); on exhaustion the call clears the used list
(leaving only the new selection), stamps the epoch with the call time, and
draws from the full candidate set, so any candidate — including the one
returned last in the previous epoch — can be returned. -/
theorem rotation_invariant_and_reset
    (data : ContentData) (ch cat : String) (now choice : Nat)
    (hne : get_templates data (some cat) ≠ [])
    (hids : ((get_templates data (some cat)).map (fun t => t.id)).Nodup)
    (hu : (usedOf data ch cat).Nodup)
    (hsub : ∀ i ∈ usedOf data ch cat,
      i ∈ (get_templates data (some cat)).map (fun t => t.id)) :
    ∃ t : ContentTemplate,
      (get_rotated_content_core data ch cat now choice).1 = some t ∧
      (∀ i ∈ usedOf (get_rotated_content_core data ch cat now choice).2 ch cat,
        i ∈ (get_templates data (some cat)).map (fun t => t.id)) ∧
      (usedOf (get_rotated_content_core data ch cat now choice).2 ch cat).Nodup ∧
      (usedOf (get_rotated_content_core data ch cat now choice).2 ch cat).length
        ≤ (get_templates data (some cat)).length ∧
      (availableOf data ch cat = [] →
        usedOf (get_rotated_content_core data ch cat now choice).2 ch cat
          = [t.id] ∧
        (rotationOf (get_rotated_content_core data ch cat now choice).2
          ch cat).last_reset = now ∧
        (∀ u ∈ get_templates data (some cat),
          ∃ c2, (get_rotated_content_core data ch cat now c2).1 = some u)) ∧
      (availableOf data ch cat ≠ [] →
        usedOf (get_rotated_content_core data ch cat now choice).2 ch cat
          = usedOf data ch cat ++ [t.id] ∧
        t.id ∉ usedOf data ch cat) := by
  obtain ⟨t, h1, hT, hS, hP, hstep, hexh, hsurj⟩ :=
    get_rotated_content_core_spec data ch cat now choice hne
  by_cases hav : availableOf data ch cat = []
  · obtain ⟨htmem, hused', hreset⟩ := hexh hav
    refine ⟨t, h1, ?_, ?_, ?_, ?_, ?_⟩
    · rw [hused']
      intro i hi
      simp at hi
      subst hi
      exact List.mem_map_of_mem (fun t => t.id) htmem
    · rw [hused']; simp
    · rw [hused']
      have : 0 < (get_templates data (some cat)).length :=
        List.length_pos.mpr hne
      simpa using this
    · intro _
      refine ⟨hused', hreset, ?_⟩
      intro u hu'
      have hsurj' := hsurj u (by rw [if_pos hav]; exact hu')
      exact hsurj'
    · intro h; exact absurd hav h
  · obtain ⟨htmem, hused'⟩ := hstep hav
    obtain ⟨htcand, htnot⟩ := mem_of_mem_available htmem
    have hsub' : ∀ i ∈ usedOf
        (get_rotated_content_core data ch cat now choice).2 ch cat,
        i ∈ (get_templates data (some cat)).map (fun t => t.id) := by
      rw [hused']
      intro i hi
      rcases List.mem_append.mp hi with h | h
      · exact hsub i h
      · simp at h
        subst h
        exact List.mem_map_of_mem (fun t => t.id) htcand
    have hnodup' : (usedOf
        (get_rotated_content_core data ch cat now choice).2 ch cat).Nodup := by
      rw [hused']
      simp [List.nodup_append, hu, htnot]
    refine ⟨t, h1, hsub', hnodup', ?_, ?_, ?_⟩
    · have hle := (hnodup'.subperm hsub').length_le
      rw [List.length_map] at hle
      exact hle
    · intro h; exact absurd h hav
    · intro _; exact ⟨hused', htnot⟩

/-- Witness for C5's amended theorem at a fresh two-template scope. -/
theorem rotation_invariant_and_reset_witness :
    ∃ t : ContentTemplate,
      (get_rotated_content_core dataTwoTpl "ch" "motivation" 11 1).1 = some t ∧
      (∀ i ∈ usedOf (get_rotated_content_core dataTwoTpl "ch" "motivation"
          11 1).2 "ch" "motivation",
        i ∈ (get_templates dataTwoTpl (some "motivation")).map
          (fun t => t.id)) ∧
      (usedOf (get_rotated_content_core dataTwoTpl "ch" "motivation" 11 1).2
        "ch" "motivation").Nodup ∧
      (usedOf (get_rotated_content_core dataTwoTpl "ch" "motivation" 11 1).2
        "ch" "motivation").length
        ≤ (get_templates dataTwoTpl (some "motivation")).length ∧
      (availableOf dataTwoTpl "ch" "motivation" = [] →
        usedOf (get_rotated_content_core dataTwoTpl "ch" "motivation" 11 1).2
          "ch" "motivation" = [t.id] ∧
        (rotationOf (get_rotated_content_core dataTwoTpl "ch" "motivation"
          11 1).2 "ch" "motivation").last_reset = 11 ∧
        (∀ u ∈ get_templates dataTwoTpl (some "motivation"),
          ∃ c2, (get_rotated_content_core dataTwoTpl "ch" "motivation"
            11 c2).1 = some u)) ∧
      (availableOf dataTwoTpl "ch" "motivation" ≠ [] →
        usedOf (get_rotated_content_core dataTwoTpl "ch" "motivation" 11 1).2
          "ch" "motivation"
          = usedOf dataTwoTpl "ch" "motivation" ++ [t.id] ∧
        t.id ∉ usedOf dataTwoTpl "ch" "motivation") :=
  rotation_invariant_and_reset dataTwoTpl "ch" "motivation" 11 1
    (by decide) (by decide) (by decide) (by decide)

/-- Store wrapping dataTwoTpl with its file in sync. -/
def storeTwoTpl : ContentStore :=
  { data := dataTwoTpl, file := FileState.valid dataTwoTpl }

/-- Counterexample to C2 as stated: a successful get_rotated_content call
leaves the template catalog — and hence the chosen item's usage_count —
completely unchanged (the count stays 0 instead of becoming 1). -/
theorem selection_side_effects_counterexample :
    (get_rotated_content storeOneTpl "ch" "motivation" 7 0).1 = some "body" ∧
    ((get_rotated_content storeOneTpl "ch" "motivation" 7 0).2).data.templates
      = [tplA] ∧
    tplA.usage_count = 0 := by
  decide

/-- Element-wise effect of bumpUsage: each position is either untouched or
holds the first id-match with its usage_count incremented by one. -/
theorem bumpUsage_get? (l : List ContentTemplate) (tid : String) :
    ∀ k, (bumpUsage l tid).get? k = l.get? k ∨
      ∃ t, l.get? k = some t ∧ t.id = tid ∧
        (bumpUsage l tid).get? k
          = some { t with usage_count := t.usage_count + 1 } := by
  induction l with
  | nil => intro k; left; simp [bumpUsage]
  | cons a rest ih =>
    intro k
    by_cases h : a.id = tid
    · have hb : (a.id == tid) = true := by simp [h]
      cases k with
      | zero => exact Or.inr ⟨a, rfl, h, by simp [bumpUsage, hb]⟩
      | succ k => left; simp [bumpUsage, hb]
    · have hb : (a.id == tid) = false := by simp [h]
      cases k with
      | zero => left; simp [bumpUsage, hb]
      | succ k =>
        rcases ih k with h2 | ⟨t, ht1, ht2, ht3⟩
        · left; simpa [bumpUsage, hb] using h2
        · right; exact ⟨t, by simpa using ht1, ht2, by simpa [bumpUsage, hb] using ht3⟩

/-- C2 amended: a successful get_rotated_content call records the chosen
item's id in the scope's used list and persists the state, but changes no
usage_count — the template catalog is untouched. A usage_count increment
happens only in use_template, which bumps exactly the first template whose
id matches and leaves every other template unchanged. -/
theorem selection_side_effects :
    (∀ (s : ContentStore) (ch cat : String) (now choice : Nat),
      get_templates s.data (some cat) ≠ [] →
      ∃ (t : ContentTemplate) (s' : ContentStore),
        get_rotated_content s ch cat now choice = (some t.template, s') ∧
        s'.data.templates = s.data.templates ∧
        s'.file = FileState.valid s'.data ∧
        (availableOf s.data ch cat ≠ [] →
          usedOf s'.data ch cat = usedOf s.data ch cat ++ [t.id]) ∧
        (availableOf s.data ch cat = [] →
          usedOf s'.data ch cat = [t.id])) ∧
    (∀ (s : ContentStore) (template_id : String)
        (vars : List (String × String)) (now : Nat) (t : ContentTemplate),
      s.data.templates.find? (fun x => x.id == template_id) = some t →
      ∃ s', use_template s template_id vars now
          = some (substitute t.template vars, s') ∧
        s'.data.templates = bumpUsage s.data.templates template_id ∧
        s'.file = FileState.valid s'.data ∧
        (∀ k, (bumpUsage s.data.templates template_id).get? k
            = s.data.templates.get? k ∨
          ∃ u, s.data.templates.get? k = some u ∧ u.id = template_id ∧
            (bumpUsage s.data.templates template_id).get? k
              = some { u with usage_count := u.usage_count + 1 })) := by
  constructor
  · intro s ch cat now choice hne
    obtain ⟨t, h1, hT, hS, hP, hstep, hexh, _⟩ :=
      get_rotated_content_core_spec s.data ch cat now choice hne
    have hpair : get_rotated_content_core s.data ch cat now choice
        = (some t, (get_rotated_content_core s.data ch cat now choice).2) := by
      rw [← h1]
    refine ⟨t, content_save_data { s with data :=
        (get_rotated_content_core s.data ch cat now choice).2 } now,
      ?_, ?_, ?_, ?_, ?_⟩
    · unfold get_rotated_content
      rw [hpair]
    · simpa [content_save_data] using hT
    · simp [content_save_data]
    · intro hav
      have := (hstep hav).2
      simpa [content_save_data, usedOf, rotationOf] using this
    · intro hav
      have := (hexh hav).2.1
      simpa [content_save_data, usedOf, rotationOf] using this
  · intro s template_id vars now t hfind
    refine ⟨content_save_data { s with data := { s.data with
        templates := bumpUsage s.data.templates template_id } } now,
      ?_, ?_, ?_, bumpUsage_get? s.data.templates template_id⟩
    · unfold use_template
      rw [hfind]
    · simp [content_save_data]
    · simp [content_save_data]

/-- Witness for C2's amended theorem: rotation part at a concrete store. -/
theorem selection_side_effects_witness :
    ∃ (t : ContentTemplate) (s' : ContentStore),
      get_rotated_content storeTwoTpl "ch" "motivation" 9 1
        = (some t.template, s') ∧
      s'.data.templates = storeTwoTpl.data.templates ∧
      s'.file = FileState.valid s'.data ∧
      (availableOf storeTwoTpl.data "ch" "motivation" ≠ [] →
        usedOf s'.data "ch" "motivation"
          = usedOf storeTwoTpl.data "ch" "motivation" ++ [t.id]) ∧
      (availableOf storeTwoTpl.data "ch" "motivation" = [] →
        usedOf s'.data "ch" "motivation" = [t.id]) :=
  selection_side_effects.1 storeTwoTpl "ch" "motivation" 9 1 (by decide)

/-- A scheduled message already in the terminal cancelled state. -/
def msgCancelled : ScheduledMessage :=
  { id := "m1", channel_id := "-100", content := "txt", scheduled_time := 5,
    category := "general", status := "cancelled", created_at := 0 }

/-- Document holding exactly the cancelled message. -/
def dataMsgCancelled : ContentData :=
  { scheduled_messages := [msgCancelled], templates := [],
    content_rotation := [], channel_preferences := [], last_updated := 0 }

/-- The length of the scheduled list is preserved by markFirst. -/
theorem markFirst_length (l : List ScheduledMessage) (mid : String) :
    (markFirst l mid).length = l.length := by
  induction l with
  | nil => rfl
  | cons a rest ih =>
    by_cases h : a.id = mid
    · simp [markFirst, h]
    · have hb : (a.id == mid) = false := by simp [h]
      simp [markFirst, hb, ih]

/-- Element-wise effect of markFirst: each position is either untouched or
holds an id-match with its status overwritten to "sent". -/
theorem markFirst_get? (l : List ScheduledMessage) (mid : String) :
    ∀ k, (markFirst l mid).get? k = l.get? k ∨
      ∃ m, l.get? k = some m ∧ m.id = mid ∧
        (markFirst l mid).get? k = some { m with status := "sent" } := by
  induction l with
  | nil => intro k; left; simp [markFirst]
  | cons a rest ih =>
    intro k
    by_cases h : a.id = mid
    · have hb : (a.id == mid) = true := by simp [h]
      cases k with
      | zero => exact Or.inr ⟨a, rfl, h, by simp [markFirst, hb]⟩
      | succ k => left; simp [markFirst, hb]
    · have hb : (a.id == mid) = false := by simp [h]
      cases k with
      | zero => left; simp [markFirst, hb]
      | succ k =>
        rcases ih k with h2 | ⟨m, hm1, hm2, hm3⟩
        · left; simpa [markFirst, hb] using h2
        · right
          exact ⟨m, by simpa using hm1, hm2, by simpa [markFirst, hb] using hm3⟩

/-- markFirst with no matching id is the identity. -/
theorem markFirst_of_no_match (l : List ScheduledMessage) (mid : String)
    (h : ∀ m ∈ l, m.id ≠ mid) : markFirst l mid = l := by
  induction l with
  | nil => rfl
  | cons a rest ih =>
    have ha : a.id ≠ mid := h a (List.mem_cons_self a rest)
    have hb : (a.id == mid) = false := by simp [ha]
    simp [markFirst, hb]
    exact ih (fun m hm => h m (List.mem_cons_of_mem a hm))

/-- markFirst rewrites exactly the first matching position. -/
theorem markFirst_first_match (l : List ScheduledMessage) (mid : String) :
    ∀ (k : Nat) (m : ScheduledMessage), l.get? k = some m → m.id = mid →
      (∀ (j : Nat) (m' : ScheduledMessage), j < k → l.get? j = some m' →
        m'.id ≠ mid) →
      markFirst l mid = l.set k { m with status := "sent" } := by
  induction l with
  | nil => intro k m hk; simp at hk
  | cons a rest ih =>
    intro k m hk hmid hfirst
    cases k with
    | zero =>
      simp at hk
      subst hk
      have hb : (a.id == mid) = true := by simp [hmid]
      simp [markFirst, hb]
    | succ k =>
      have ha : a.id ≠ mid := hfirst 0 a (Nat.succ_pos k) rfl
      have hb : (a.id == mid) = false := by simp [ha]
      have hrest := ih k m (by simpa using hk) hmid
        (fun j m' hj hjm => hfirst (j + 1) m' (by omega) (by simpa using hjm))
      simp [markFirst, hb, hrest]

/-- Counterexample to C8 as stated: mark_message_sent applied to a message in
the terminal cancelled state overwrites its status with "sent" instead of
leaving it unchanged. -/
theorem status_monotone_counterexample :
    msgCancelled.status = "cancelled" ∧
    (mark_message_sent_data dataMsgCancelled "m1").scheduled_messages.get? 0
      = some { msgCancelled with status := "sent" } ∧
    ¬ ({ msgCancelled with status := "sent" }).status = msgCancelled.status := by
  decide

/-- C8 amended: mark_message_sent sets the first id-matching message's status
to "sent" unconditionally — regardless of a prior sent or cancelled status,
so terminal states are not guarded — and no operation moves a status back to
pending: any message that is pending afterwards was the very same pending
message before, and schedule_message only appends a fresh pending message. -/
theorem status_monotone (data : ContentData) (mid : String) :
    ((mark_message_sent_data data mid).scheduled_messages.length
      = data.scheduled_messages.length) ∧
    (∀ k, ((mark_message_sent_data data mid).scheduled_messages.get? k
        = data.scheduled_messages.get? k) ∨
      ∃ m, data.scheduled_messages.get? k = some m ∧ m.id = mid ∧
        (mark_message_sent_data data mid).scheduled_messages.get? k
          = some { m with status := "sent" }) ∧
    (∀ (k : Nat) (m' : ScheduledMessage),
      (mark_message_sent_data data mid).scheduled_messages.get? k = some m' →
      m'.status = "pending" →
      data.scheduled_messages.get? k = some m') ∧
    (∀ (s : ContentStore) (channel_id content : String) (stime : Nat)
        (cat : String) (now : Nat),
      ((schedule_message s channel_id content stime cat now).2).data.scheduled_messages
        = s.data.scheduled_messages ++
          [{ id := "msg_" ++ toString now, channel_id := channel_id,
             content := content, scheduled_time := stime, category := cat,
             status := "pending", created_at := now }]) := by
  refine ⟨markFirst_length data.scheduled_messages mid,
    markFirst_get? data.scheduled_messages mid, ?_, ?_⟩
  · intro k m' hk hpend
    have hms : (mark_message_sent_data data mid).scheduled_messages
        = markFirst data.scheduled_messages mid := rfl
    rw [hms] at hk
    rcases markFirst_get? data.scheduled_messages mid k with h | ⟨m, hm1, _, hm3⟩
    · rw [← h]; exact hk
    · have hsome : some m' = some { m with status := "sent" } :=
        hk.symm.trans hm3
      have hm' : m' = { m with status := "sent" } := by
        injection hsome
      rw [hm'] at hpend
      simp at hpend
  · intro s channel_id content stime cat now
    simp [schedule_message, content_save_data]

/-- A scheduled message still pending. -/
def msgPending : ScheduledMessage :=
  { id := "m2", channel_id := "-100", content := "txt2", scheduled_time := 6,
    category := "general", status := "pending", created_at := 0 }

/-- Document holding exactly the pending message. -/
def dataMsgPending : ContentData :=
  { scheduled_messages := [msgPending], templates := [],
    content_rotation := [], channel_preferences := [], last_updated := 0 }

/-- Witness for C8's amended theorem: a message that is pending after the
call was that same pending message before. -/
theorem status_monotone_witness :
    dataMsgPending.scheduled_messages.get? 0 = some msgPending :=
  (status_monotone dataMsgPending "zz").2.2.1 0 msgPending (by decide)
    (by decide)

/-- C10: frame effect of mark_message_sent. Templates, rotation state,
preferences and the list length are untouched; with no id match the
scheduled list is unchanged; with a first match at position k, the result is
exactly the original list with position k replaced by the same record with
only its status set to "sent" — at most one record is mutated, and no other
field of it changes. -/
theorem mark_message_sent_frame (data : ContentData) (mid : String) :
    (mark_message_sent_data data mid).templates = data.templates ∧
    (mark_message_sent_data data mid).content_rotation
      = data.content_rotation ∧
    (mark_message_sent_data data mid).channel_preferences
      = data.channel_preferences ∧
    (mark_message_sent_data data mid).last_updated = data.last_updated ∧
    (mark_message_sent_data data mid).scheduled_messages.length
      = data.scheduled_messages.length ∧
    ((∀ m ∈ data.scheduled_messages, m.id ≠ mid) →
      (mark_message_sent_data data mid).scheduled_messages
        = data.scheduled_messages) ∧
    (∀ (k : Nat) (m : ScheduledMessage),
      data.scheduled_messages.get? k = some m → m.id = mid →
      (∀ (j : Nat) (m' : ScheduledMessage), j < k →
        data.scheduled_messages.get? j = some m' → m'.id ≠ mid) →
      (mark_message_sent_data data mid).scheduled_messages
        = data.scheduled_messages.set k { m with status := "sent" }) := by
  refine ⟨rfl, rfl, rfl, rfl,
    markFirst_length data.scheduled_messages mid, ?_, ?_⟩
  · intro h
    exact markFirst_of_no_match data.scheduled_messages mid h
  · intro k m hk hmid hfirst
    exact markFirst_first_match data.scheduled_messages mid k m hk hmid hfirst

/-- Witness for C10 at a concrete document: no id match leaves the list as
it was. -/
theorem mark_message_sent_frame_witness :
    (mark_message_sent_data dataMsgCancelled "zz").scheduled_messages
      = dataMsgCancelled.scheduled_messages :=
  (mark_message_sent_frame dataMsgCancelled "zz").2.2.2.2.2.1 (by decide)

/-- An active channel entry. -/
def chInfoA : ChannelInfo := { name := "A", active := some true }

/-- A poll configuration whose threshold is set to 100. -/
def cfgLow : PollConfig :=
  { enabled := some true, hour := some 10, minute := some 0,
    question := some "q", min_subscribers := some 100,
    options := ["a", "b"] }

/-- A fetch that always reports 300 subscribers. -/
def fetch300 : String → FetchOutcome := fun _ => FetchOutcome.countOk 300

/-- A transport whose poll sends always succeed. -/
def sendAll : String → Bool := fun _ => true

/-- A fetch whose get_chat call always raises. -/
def fetchErr : String → FetchOutcome := fun _ => FetchOutcome.chatError

/-- Counterexample to C3 as stated: with the threshold configured to 100 and
a fetched count of 300 (>= the configured threshold), the job still skips the
active destination, because the code compares against the literal 500 and
never reads min_subscribers. -/
theorem poll_threshold_counterexample :
    cfgLow.min_subscribers = some 100 ∧
    get_channel_subscriber_count (fetch300 "-100") = 300 ∧
    send_daily_polls [("-100", chInfoA)] cfgLow cfgLow.options fetch300 sendAll
      = [PollStep.skippedLowCount "-100" 300] := by
  constructor
  · rfl
  · constructor
    · rfl
    · rfl

/-- C3 amended: the daily-poll job attempts a poll for a destination exactly
when the destination is active and the fetched subscriber count is at least
the fixed literal 500; the configured min_subscribers value is never read
(the job's behavior is independent of the poll configuration record), and the
default configuration sets min_subscribers to 500, matching the literal. -/
theorem poll_threshold_fixed (channels : List (String × ChannelInfo))
    (cfg cfg' : PollConfig) (options : List String)
    (fetch : String → FetchOutcome) (sendOk : String → Bool)
    (hopts : options ≠ []) :
    send_daily_polls channels cfg options fetch sendOk
      = channels.map (poll_step fetch sendOk) ∧
    send_daily_polls channels cfg options fetch sendOk
      = send_daily_polls channels cfg' options fetch sendOk ∧
    (∀ (c : String) (info : ChannelInfo),
      (poll_step fetch sendOk (c, info)).isAttempt = true ↔
        (info.active.getD true = true ∧
          500 ≤ get_channel_subscriber_count (fetch c))) ∧
    default_poll_config.min_subscribers = some 500 := by
  have hEmp : options.isEmpty = false := by
    cases h : options with
    | nil => exact absurd h hopts
    | cons a as => rfl
  refine ⟨?_, rfl, ?_, rfl⟩
  · simp [send_daily_polls, hEmp]
  · intro c info
    unfold poll_step
    by_cases hact : info.active.getD true = true
    · simp only [hact, Bool.not_true, Bool.false_eq_true, if_false]
      by_cases hlow : get_channel_subscriber_count (fetch c) < 500
      · rw [if_pos hlow]
        simp [PollStep.isAttempt]
        omega
      · rw [if_neg hlow]
        by_cases hsend : sendOk c = true
        · simp [hsend, PollStep.isAttempt, hact]
          omega
        · simp only [hsend, Bool.false_eq_true, if_false]
          simp [PollStep.isAttempt, hact]
          omega
    · have hact' : info.active.getD true = false :=
        Bool.eq_false_iff.mpr hact
      simp [hact', PollStep.isAttempt, hact]

/-- Witness for C3's amended theorem: the default configuration carries
min_subscribers = 500. -/
theorem poll_threshold_fixed_witness :
    default_poll_config.min_subscribers = some 500 :=
  (poll_threshold_fixed [] default_poll_config default_poll_config ["x"]
    fetch300 sendAll (by decide)).2.2.2

/-- C4: eligibility fail-closed with batch isolation. When the subscriber
fetch for a destination fails (get_chat raises, or the member-count call
raises with no fallback attribute), the computed count is 0, the destination
is never sent a poll that cycle (no send attempt), and the job still
processes every destination before and after it exactly as it would on its
own — the failure never aborts the batch. -/
theorem fetch_fail_closed (pre post : List (String × ChannelInfo))
    (c : String) (info : ChannelInfo) (cfg : PollConfig)
    (options : List String) (fetch : String → FetchOutcome)
    (sendOk : String → Bool) (hopts : options ≠ [])
    (hfail : fetch c = FetchOutcome.chatError ∨
      fetch c = FetchOutcome.countFallback none) :
    get_channel_subscriber_count (fetch c) = 0 ∧
    (poll_step fetch sendOk (c, info)).isAttempt = false ∧
    send_daily_polls (pre ++ (c, info) :: post) cfg options fetch sendOk
      = send_daily_polls pre cfg options fetch sendOk
        ++ poll_step fetch sendOk (c, info)
          :: send_daily_polls post cfg options fetch sendOk := by
  have hEmp : options.isEmpty = false := by
    cases h : options with
    | nil => exact absurd h hopts
    | cons a as => rfl
  have hzero : get_channel_subscriber_count (fetch c) = 0 := by
    rcases hfail with h | h <;> rw [h] <;> rfl
  refine ⟨hzero, ?_, ?_⟩
  · unfold poll_step
    by_cases hact : info.active.getD true = true
    · simp only [hact, Bool.not_true, Bool.false_eq_true, if_false, hzero]
      simp [PollStep.isAttempt]
    · have hact' : info.active.getD true = false :=
        Bool.eq_false_iff.mpr hact
      simp [hact', PollStep.isAttempt]
  · simp [send_daily_polls, hEmp]

/-- Witness for C4 at a concrete channel list: the erroring destination gets
no poll and its neighbors are processed unchanged. -/
theorem fetch_fail_closed_witness :
    get_channel_subscriber_count (fetchErr "-2") = 0 ∧
    (poll_step fetchErr sendAll ("-2", chInfoA)).isAttempt = false ∧
    send_daily_polls [("-1", chInfoA), ("-2", chInfoA), ("-3", chInfoA)]
        default_poll_config ["a"] fetchErr sendAll
      = send_daily_polls [("-1", chInfoA)] default_poll_config ["a"]
          fetchErr sendAll
        ++ poll_step fetchErr sendAll ("-2", chInfoA)
          :: send_daily_polls [("-3", chInfoA)] default_poll_config ["a"]
              fetchErr sendAll :=
  fetch_fail_closed [("-1", chInfoA)] [("-3", chInfoA)] "-2" chInfoA
    default_poll_config ["a"] fetchErr sendAll (by decide) (Or.inl rfl)

/-- Analytics document with no recorded events. -/
def emptyAnalyticsData : AnalyticsData :=
  { channel_stats := [], message_stats := [], daily_summaries := [],
    last_updated := 0 }

/-- C6: engagement aggregation. With no messageOutcome events in the window
the result is exactly the all-zero record (and no division is attempted —
the function is total); otherwise the averages are the exact rational sums
over the count, and the engagement rate is reactions over views times 100,
or 0 when the view total is 0. -/
theorem engagement_stats_spec (data : AnalyticsData) (ch : String)
    (days : Nat) (now : Int) :
    (engagement_window data ch days now = [] →
      get_engagement_stats data ch days now
        = { total_messages := 0, avg_views := 0, avg_reactions := 0,
            engagement_rate := 0, period_days := none }) ∧
    (engagement_window data ch days now ≠ [] →
      get_engagement_stats data ch days now
        = { total_messages := (engagement_window data ch days now).length,
            avg_views :=
              (((((engagement_window data ch days now).map
                (fun m => m.views)).sum : Nat) : Rat)
                / ((engagement_window data ch days now).length : Rat)),
            avg_reactions :=
              (((((engagement_window data ch days now).map
                (fun m => m.reactions)).sum : Nat) : Rat)
                / ((engagement_window data ch days now).length : Rat)),
            engagement_rate :=
              if 0 < (((engagement_window data ch days now).map
                  (fun m => m.views)).sum : Nat) then
                (((((engagement_window data ch days now).map
                  (fun m => m.reactions)).sum : Nat) : Rat)
                  / ((((engagement_window data ch days now).map
                    (fun m => m.views)).sum : Nat) : Rat) * 100)
              else 0,
            period_days := some days }) := by
  constructor
  · intro h
    unfold get_engagement_stats
    rw [h]
    rfl
  · intro h
    have hEmp : (engagement_window data ch days now).isEmpty = false := by
      cases hw : engagement_window data ch days now with
      | nil => exact absurd hw h
      | cons a as => rfl
    have hpos : 0 < (engagement_window data ch days now).length :=
      List.length_pos.mpr h
    unfold get_engagement_stats
    simp only [hEmp, Bool.false_eq_true, if_false, hpos, if_pos]

/-- Witness for C6 at the empty analytics document. -/
theorem engagement_stats_spec_witness :
    get_engagement_stats emptyAnalyticsData "c" 7 100
      = { total_messages := 0, avg_views := 0, avg_reactions := 0,
          engagement_rate := 0, period_days := none } :=
  (engagement_stats_spec emptyAnalyticsData "c" 7 100).1 rfl

/-- C7: daily message determinism. Every message delivered by a daily firing
is the pool entry at index dayOfYear mod L, a pure function of the date (in
particular the same for every destination and for repeated firings on the
same day); and for every index of a pool of at most 365 messages there is a
day of the year (1..365) on which that index is selected. -/
theorem daily_message_determinism (daily_messages : List String)
    (hne : daily_messages ≠ []) (hle : daily_messages.length ≤ 365) :
    (∀ (channels : List (String × ChannelInfo)) (sendOk : String → Bool)
        (dayOfYear : Nat) (c m : String),
      SendStep.sentMessage c m
          ∈ send_daily_messages channels daily_messages dayOfYear sendOk →
      m = daily_messages.getD (dayOfYear % daily_messages.length) "") ∧
    (∀ k, k < daily_messages.length →
      ∃ d, 1 ≤ d ∧ d ≤ 365 ∧ d % daily_messages.length = k) := by
  have hEmp : daily_messages.isEmpty = false := by
    cases h : daily_messages with
    | nil => exact absurd h hne
    | cons a as => rfl
  constructor
  · intro channels sendOk d c m hmem
    unfold send_daily_messages at hmem
    simp only [hEmp, Bool.false_eq_true, if_false] at hmem
    obtain ⟨entry, _, heq⟩ := List.mem_map.mp hmem
    unfold message_step at heq
    split at heq
    · simp at heq
    · split at heq
      · injection heq with h1 h2
        exact h2.symm
      · simp at heq
  · intro k hk
    rcases Nat.eq_zero_or_pos k with hk0 | hkpos
    · subst hk0
      exact ⟨daily_messages.length, List.length_pos.mpr hne, hle,
        Nat.mod_self _⟩
    · exact ⟨k, hkpos, le_trans (le_of_lt hk) hle, Nat.mod_eq_of_lt hk⟩

/-- Witness for C7 at a two-message pool: index 1 is selected on some day of
the year. -/
theorem daily_message_determinism_witness :
    ∃ d, 1 ≤ d ∧ d ≤ 365 ∧ d % 2 = 1 := by
  have h := (daily_message_determinism ["a", "b"] (by decide) (by decide)).2
    1 (by decide)
  simpa using h

/-- Counterexample to C9 as stated: loading a missing file initializes the
in-memory default but writes nothing — for both stores, the file is still
missing afterwards instead of holding the default document. -/
theorem missing_store_counterexample :
    (content_manager_init FileState.missing 5).data
      = default_content_data 5 ∧
    (content_manager_init FileState.missing 5).file = FileState.missing ∧
    ¬ (content_manager_init FileState.missing 5).file
        = FileState.valid (default_content_data 5) ∧
    (analytics_manager_init FileState.missing 5).data
      = default_analytics_data 5 ∧
    (analytics_manager_init FileState.missing 5).file = FileState.missing ∧
    ¬ (analytics_manager_init FileState.missing 5).file
        = FileState.valid (default_analytics_data 5) := by
  decide

/-- C9 amended: when the backing file is missing at load time, each store
(content, analytics) initializes its in-memory state to the empty default
structure but performs no write — the file stays missing; the default
reaches the file only when a later operation calls save, which always writes
the current document. -/
theorem missing_store_init (now : Nat) :
    (content_manager_init FileState.missing now).data
      = default_content_data now ∧
    (content_manager_init FileState.missing now).file = FileState.missing ∧
    (∀ s : ContentStore, (content_save_data s now).file
      = FileState.valid (content_save_data s now).data) ∧
    (analytics_manager_init FileState.missing now).data
      = default_analytics_data now ∧
    (analytics_manager_init FileState.missing now).file = FileState.missing ∧
    (∀ s : AnalyticsStore, (analytics_save_data s now).file
      = FileState.valid (analytics_save_data s now).data) :=
  ⟨rfl, rfl, fun _ => rfl, rfl, rfl, fun _ => rfl⟩

end ChannelPilot
